import Mathlib

/-!
Verification development for the crm-serphawk outreach dispatch pipeline.

The repository's frontend (Next.js, `Agent_Email/frontend`) is present in
source; the backend core (FastAPI dispatcher, duplicate guard, rate
limiter, activity store) is described by the specification.  Definitions
below marked `Modelled from the spec:` embed that backend; the frontend
handlers (`handleDraft`, `handleSend`, `fetchActivities`, the activity
table rendering) are embedded directly from
`src/Agent_Email/frontend/src/app/email-agent/page.tsx`.
-/

namespace CRM

/-- Hourly ceiling for the rate limiter (env `HOURLY_EMAIL_LIMIT`, default 50). -/
def HOURLY_EMAIL_LIMIT : Nat := 50

/-- Draft shape, from the frontend interface `Draft` in
`src/Agent_Email/frontend/src/app/email-agent/page.tsx` lines 8-15. -/
structure Draft where
  company_name : String
  website_url : String
  primary_email : String
  subject : String
  body : String
  recommended_services : String
deriving Repr, DecidableEq

/-- Activity record shape, from the frontend interface `Activity` in
`src/Agent_Email/frontend/src/app/email-agent/page.tsx` lines 17-24.
Timestamps are minutes, as natural numbers. -/
structure ActivityRecord where
  id : Nat
  company_name : String
  email : String
  sent_at : Nat
  status : String
  recommended_services : String
deriving Repr, DecidableEq

/-- Modelled from the spec: the mutable shared state of the backend core —
the durable Activity Store (most-recent-first, as served by `activities()`)
and the Rate Limiter's list of counted send timestamps, plus the monotonic
identifier counter. -/
structure CoreState where
  activities : List ActivityRecord
  rateEvents : List Nat
  nextId : Nat
deriving Repr, DecidableEq

/-- Modelled from the spec: the initial, empty backend state. -/
def initState : CoreState := ⟨[], [], 0⟩

/-- Lower-case an ASCII character (used for the case-insensitive email
comparison of the Duplicate Guard). -/
def lowerChar (c : Char) : Char :=
  if 'A' ≤ c && c ≤ 'Z' then Char.ofNat (c.toNat + 32) else c

/-- Character list of a string with ASCII letters lower-cased. -/
def lowerStr (s : String) : List Char := s.toList.map lowerChar

/-- Case-insensitive string comparison. -/
def eqIgnoreCase (a b : String) : Bool := lowerStr a == lowerStr b

/-- Modelled from the spec: syntactic email validation performed at the
Dispatcher's `RECEIVED` stage — exactly one `@`, a non-empty local part, a
non-empty domain containing a dot. -/
def validEmail (s : String) : Bool :=
  let cs := s.toList
  let lp := cs.takeWhile (fun c => !(c == '@'))
  match cs.dropWhile (fun c => !(c == '@')) with
  | [] => false
  | _ :: dom => !lp.isEmpty && !dom.isEmpty && dom.contains '.' && !(dom.contains '@')

/-- Modelled from the spec: `RECEIVED` stage validation of a draft —
well-formed email, non-empty subject, non-empty body. -/
def validDraft (d : Draft) : Bool :=
  validEmail d.primary_email && !(d.subject == "") && !(d.body == "")

/-- Modelled from the spec: the Duplicate Guard
`has_prior_contact(company_name, email)` — queries persisted Activity
Records for any record whose pair matches, case-insensitive on email,
exact on company_name. Read-only. -/
def has_prior_contact (company email : String) (st : CoreState) : Bool :=
  st.activities.any (fun r => r.company_name == company && eqIgnoreCase r.email email)

/-- Count of rate-limiter events with timestamp ≥ now − 60 minutes
(written additively to avoid truncated subtraction). -/
def rlWindowCount (now : Nat) (evs : List Nat) : Nat :=
  evs.countP (fun ts => decide (now ≤ ts + 60))

/-- Modelled from the spec: the Rate Limiter's `allow()` — the count of
counted sends in the trailing 60-minute window must be below
`HOURLY_EMAIL_LIMIT`. -/
def allow (now : Nat) (st : CoreState) : Bool :=
  decide (rlWindowCount now st.rateEvents < HOURLY_EMAIL_LIMIT)

/-- Error taxonomy of the send path (spec section 7). -/
inductive SendError where
  | ValidationError
  | DuplicateError
  | RateLimitError
  | DeliveryError
deriving Repr, DecidableEq

deriving instance DecidableEq for Except

/-- Outcome of one `send-lead` request: tagged result, resulting backend
state, and whether an SMTP transmission was attempted. -/
structure SendOutcome where
  result : Except SendError ActivityRecord
  state : CoreState
  transmitted : Bool
deriving Repr, DecidableEq

/-- Modelled from the spec: the Dispatcher state machine
`RECEIVED → DUPLICATE_CHECK → RATE_CHECK → TRANSMITTING → {RECORDED | FAILED}`
executed atomically (the spec's critical section covering
DUPLICATE_CHECK through RECORDED). `now` is the request time in minutes;
`smtpOk` models the outcome of the SMTP transmission. On success the
Activity Record is appended (most-recent-first) and the rate counter
incremented in the same step. -/
def send (now : Nat) (smtpOk : Bool) (d : Draft) (st : CoreState) : SendOutcome :=
  if validDraft d = false then
    ⟨.error .ValidationError, st, false⟩
  else if has_prior_contact d.company_name d.primary_email st = true then
    ⟨.error .DuplicateError, st, false⟩
  else if allow now st = false then
    ⟨.error .RateLimitError, st, false⟩
  else if smtpOk = false then
    ⟨.error .DeliveryError, st, true⟩
  else
    let r : ActivityRecord :=
      ⟨st.nextId, d.company_name, d.primary_email, now, "sent", d.recommended_services⟩
    ⟨.ok r, ⟨r :: st.activities, now :: st.rateEvents, st.nextId + 1⟩, true⟩

/-- Modelled from the spec: the Website Analyzer's structured result. -/
structure AnalysisResult where
  pain_points : List String
  recommended_services : List String
  raw_summary : String
deriving Repr, DecidableEq

/-- Draft-generation failures (spec section 7). -/
inductive DraftError where
  | AnalysisError (msg : String)
  | CompositionError
deriving Repr, DecidableEq

/-- Modelled from the spec: the Draft Composer
`compose(company_name, website_url, primary_email)`. The analyzer outcome
and the single AI generation outcome (subject, HTML body; `none` when
unparseable) are inputs, each consumed once (single attempt, no retry).
An `AnalysisError` is propagated unchanged; empty generated subject or
body fails with `CompositionError`; otherwise a Draft with non-empty
subject and body is returned. -/
def compose (company website email : String)
    (analysis : Except String AnalysisResult)
    (gen : Option (String × String)) : Except DraftError Draft :=
  match analysis with
  | .error m => .error (.AnalysisError m)
  | .ok a =>
    match gen with
    | none => .error .CompositionError
    | some (subj, bodyHtml) =>
      if subj == "" || bodyHtml == "" then .error .CompositionError
      else .ok ⟨company, website, email, subj, bodyHtml,
        String.intercalate ", " a.recommended_services⟩

/-- One `draft-lead` request: the form inputs together with the external
collaborator outcomes (analyzer, AI generation) for this request. -/
structure DraftRequest where
  company_name : String
  website_url : String
  primary_email : String
  analysis : Except String AnalysisResult
  gen : Option (String × String)

/-- Modelled from the spec: the `draft-lead` operation — runs the Composer
and never touches the Activity Store or the rate counter. -/
def draftLead (q : DraftRequest) (st : CoreState) :
    Except DraftError Draft × CoreState :=
  (compose q.company_name q.website_url q.primary_email q.analysis q.gen, st)

/-- Backend state after a list of `draft-lead` requests. -/
def runDrafts (qs : List DraftRequest) (st : CoreState) : CoreState :=
  qs.foldl (fun s q => (draftLead q s).2) st

/-- Modelled from the spec: the read-only `activities()` operation —
returns the recent Activity Records most-recent-first and the unchanged
state. -/
def activitiesOp (st : CoreState) : List ActivityRecord × CoreState :=
  (st.activities, st)

/-- One serialized step of the backend: time advances monotonically, or a
whole `send-lead` critical section runs, or a `draft-lead` runs, or
`activities()` is read. -/
inductive Step : Nat × CoreState → Nat × CoreState → Prop where
  | tick (n n' : Nat) (st : CoreState) : n ≤ n' → Step (n, st) (n', st)
  | sendStep (n : Nat) (smtpOk : Bool) (d : Draft) (st : CoreState) :
      Step (n, st) (n, (send n smtpOk d st).state)
  | draftStep (n : Nat) (q : DraftRequest) (st : CoreState) :
      Step (n, st) (n, (draftLead q st).2)
  | readStep (n : Nat) (st : CoreState) :
      Step (n, st) (n, (activitiesOp st).2)

/-- Reflexive-transitive closure of `Step`. -/
inductive Reach : Nat × CoreState → Nat × CoreState → Prop where
  | refl (p : Nat × CoreState) : Reach p p
  | step {p q r : Nat × CoreState} : Reach p q → Step q r → Reach p r

/-- States reachable from the empty store at time 0. -/
def Reachable (p : Nat × CoreState) : Prop := Reach (0, initState) p

/-- Count of Activity Records inside the trailing 60-minute window ending
at minute `t`. -/
def actWindowCount (t : Nat) (st : CoreState) : Nat :=
  st.activities.countP (fun r => decide (t ≤ r.sent_at + 60) && decide (r.sent_at ≤ t))

/-- Combined inductive invariant of the backend state at time `n`. -/
def Inv (n : Nat) (st : CoreState) : Prop :=
  (∀ r ∈ st.activities, r.sent_at ≤ n) ∧
  st.rateEvents = st.activities.map (fun r => r.sent_at) ∧
  (∀ t, actWindowCount t st ≤ HOURLY_EMAIL_LIMIT) ∧
  List.Pairwise (fun a b => b.sent_at ≤ a.sent_at) st.activities

/-- Form state of the Email Agent page (`formData`, page.tsx lines 35-39). -/
structure OutreachForm where
  company_name : String
  website_url : String
  primary_email : String
deriving Repr, DecidableEq

/-- UI state touched by `handleSend` (page.tsx lines 27-33): current
draft, form fields, success banner, error banner. -/
structure UIState where
  draft : Option Draft
  formData : OutreachForm
  success : Option String
  error : Option String
deriving Repr, DecidableEq

/-- Outcome of the axios POST as seen by `handleSend`: the promise either
resolves (any HTTP success status, carrying the response body's `success`
field) or rejects (optionally carrying `err.response.data.detail`). -/
inductive PostOutcome where
  | resolved (bodySuccess : Bool)
  | rejected (detail : Option String)
deriving Repr, DecidableEq

/-- Embedded from `handleSend` (page.tsx lines 85-104): early-return when
there is no draft; on a resolved request set the success banner, discard
the draft and reset the form, without reading the response body; on a
rejected request set the error banner from the detail (with the fallback
message) and keep the draft and form. -/
def handleSend (st : UIState) (resp : PostOutcome) : UIState :=
  match st.draft with
  | none => st
  | some d =>
    match resp with
    | .resolved _ =>
      { st with success := some ("Email successfully sent to " ++ d.company_name ++ "!"),
                draft := none,
                formData := ⟨"", "", ""⟩,
                error := none }
    | .rejected detail =>
      { st with error := some (detail.getD "Failed to send email. Please try again.") }

/-- Embedded from the activity table (page.tsx lines 288-313): one row is
emitted per record, keyed by `activity.id`, in the order of the list held
in the `activities` state. -/
def renderRows (l : List ActivityRecord) : List Nat :=
  l.map (fun a => a.id)

/-! ### Helper lemmas -/

theorem eqIgnoreCase_symm (a b : String) : eqIgnoreCase a b = eqIgnoreCase b a := by
  unfold eqIgnoreCase
  by_cases h : lowerStr a = lowerStr b
  · simp [h]
  · simp [h, Ne.symm h]

theorem eqIgnoreCase_trans {a b c : String} (h1 : eqIgnoreCase a b = true)
    (h2 : eqIgnoreCase b c = true) : eqIgnoreCase a c = true := by
  simp only [eqIgnoreCase, beq_iff_eq] at *
  exact h1.trans h2

theorem has_prior_contact_congr (c : String) {e e' : String} (st : CoreState)
    (h : eqIgnoreCase e e' = true) :
    has_prior_contact c e st = has_prior_contact c e' st := by
  have hle : lowerStr e = lowerStr e' := by
    simpa only [eqIgnoreCase, beq_iff_eq] using h
  simp only [has_prior_contact, eqIgnoreCase, hle]

theorem send_state_cases (n : Nat) (smtpOk : Bool) (d : Draft) (st : CoreState) :
    (send n smtpOk d st).state = st ∨
    (validDraft d = true ∧
     has_prior_contact d.company_name d.primary_email st = false ∧
     allow n st = true ∧ smtpOk = true ∧
     (send n smtpOk d st).state =
       ⟨⟨st.nextId, d.company_name, d.primary_email, n, "sent", d.recommended_services⟩ ::
          st.activities, n :: st.rateEvents, st.nextId + 1⟩) := by
  unfold send
  split
  · exact Or.inl rfl
  · split
    · exact Or.inl rfl
    · split
      · exact Or.inl rfl
      · split
        · exact Or.inl rfl
        · rename_i h1 h2 h3 h4
          exact Or.inr ⟨by simpa using h1, by simpa using h2, by simpa using h3,
            by simpa using h4, rfl⟩

theorem send_success (n : Nat) (d : Draft) (st : CoreState)
    (hv : validDraft d = true)
    (hd : has_prior_contact d.company_name d.primary_email st = false)
    (ha : allow n st = true) :
    send n true d st =
      ⟨.ok ⟨st.nextId, d.company_name, d.primary_email, n, "sent", d.recommended_services⟩,
       ⟨⟨st.nextId, d.company_name, d.primary_email, n, "sent", d.recommended_services⟩ ::
          st.activities, n :: st.rateEvents, st.nextId + 1⟩, true⟩ := by
  unfold send
  simp [hv, hd, ha]

theorem send_ok_elim {n : Nat} {smtpOk : Bool} {d : Draft} {st : CoreState}
    {rec : ActivityRecord} (h : (send n smtpOk d st).result = .ok rec) :
    rec.company_name = d.company_name ∧ rec.email = d.primary_email ∧
    rec ∈ (send n smtpOk d st).state.activities := by
  revert h
  unfold send
  split
  · intro h; exact absurd h (by simp)
  · split
    · intro h; exact absurd h (by simp)
    · split
      · intro h; exact absurd h (by simp)
      · split
        · intro h; exact absurd h (by simp)
        · intro h
          simp only [Except.ok.injEq] at h
          subst h
          exact ⟨rfl, rfl, List.mem_cons_self _ _⟩

theorem inv_init : Inv 0 initState := by
  refine ⟨?_, rfl, ?_, ?_⟩ <;> simp [initState, actWindowCount]

theorem inv_mono {n n' : Nat} {st : CoreState} (h : n ≤ n') (hI : Inv n st) : Inv n' st :=
  ⟨fun r hr => le_trans (hI.1 r hr) h, hI.2.1, hI.2.2.1, hI.2.2.2⟩

theorem inv_send {n : Nat} {st : CoreState} (smtpOk : Bool) (d : Draft) (hI : Inv n st) :
    Inv n (send n smtpOk d st).state := by
  rcases send_state_cases n smtpOk d st with h | ⟨hv, hd, ha, hok, h⟩
  · rw [h]; exact hI
  · rw [h]
    obtain ⟨h1, h2, h3, h4⟩ := hI
    have hcount : rlWindowCount n st.rateEvents < HOURLY_EMAIL_LIMIT := by
      simpa [allow] using ha
    refine ⟨?_, ?_, ?_, ?_⟩
    · intro r hr
      rcases List.mem_cons.mp hr with hr | hr
      · subst hr; exact le_refl n
      · exact h1 r hr
    · simp [h2]
    · intro t
      have h3t := h3 t
      unfold actWindowCount at h3t ⊢
      dsimp only
      rw [List.countP_cons]
      by_cases hp : t ≤ n + 60 ∧ n ≤ t
      · have hif : (decide (t ≤ n + 60) && decide (n ≤ t)) = true := by
          simp [hp.1, hp.2]
        have hsub : st.activities.countP
              (fun r => decide (t ≤ r.sent_at + 60) && decide (r.sent_at ≤ t)) ≤
            st.activities.countP (fun r => decide (n ≤ r.sent_at + 60)) := by
          apply List.countP_mono_left
          intro r _ hr
          have hr' := Bool.and_eq_true_iff.mp hr
          have h60 : t ≤ r.sent_at + 60 := by simpa using hr'.1
          exact decide_eq_true (le_trans hp.2 h60)
        have hmap : st.activities.countP (fun r => decide (n ≤ r.sent_at + 60)) =
            rlWindowCount n st.rateEvents := by
          rw [h2]
          unfold rlWindowCount
          rw [List.countP_map]
          rfl
        simp only [hif, if_true]
        omega
      · have hif : (decide (t ≤ n + 60) && decide (n ≤ t)) = false := by
          simp only [Bool.and_eq_false_iff, decide_eq_false_iff_not]
          omega
        simp [hif]
        omega
    · refine List.pairwise_cons.mpr ⟨?_, h4⟩
      intro b hb
      exact h1 b hb

theorem inv_step {p q : Nat × CoreState} (hs : Step p q) (hI : Inv p.1 p.2) :
    Inv q.1 q.2 := by
  cases hs with
  | tick n n' st h => exact inv_mono h hI
  | sendStep n smtpOk d st => exact inv_send smtpOk d hI
  | draftStep n q st => exact hI
  | readStep n st => exact hI

theorem inv_reach {p q : Nat × CoreState} (h : Reach p q) (hI : Inv p.1 p.2) :
    Inv q.1 q.2 := by
  induction h with
  | refl => exact hI
  | step hre hs ih => exact inv_step hs ih

theorem inv_reachable {p : Nat × CoreState} (h : Reachable p) : Inv p.1 p.2 :=
  inv_reach h inv_init

theorem mem_activities_step {p q : Nat × CoreState} (hs : Step p q)
    {r : ActivityRecord} (hr : r ∈ p.2.activities) : r ∈ q.2.activities := by
  cases hs with
  | tick n n' st h => exact hr
  | sendStep n smtpOk d st =>
    rcases send_state_cases n smtpOk d st with h | ⟨_, _, _, _, h⟩
    · rw [h]; exact hr
    · rw [h]; exact List.mem_cons_of_mem _ hr
  | draftStep n q st => exact hr
  | readStep n st => exact hr

theorem mem_activities_reach {p q : Nat × CoreState} (h : Reach p q)
    {r : ActivityRecord} (hr : r ∈ p.2.activities) : r ∈ q.2.activities := by
  induction h with
  | refl => exact hr
  | step hre hs ih => exact mem_activities_step hs ih

/-! ### Concrete states and drafts used by the witnesses -/

/-- Demo draft for the Acme scenario of the spec (section 8). -/
def demoDraft : Draft :=
  ⟨"Acme", "https://acme.test", "ops@acme.test", "Boost your traffic",
   "<p>Hello Acme</p>", "SEO"⟩

/-- Demo draft for the same (company, email) pair with the email in a
different letter case. -/
def demoDraft2 : Draft :=
  ⟨"Acme", "https://acme.test", "OPS@ACME.TEST", "Following up",
   "<p>Hello again</p>", "SEO"⟩

/-- Demo draft for a second, distinct company. -/
def demoDraftB : Draft :=
  ⟨"Globex", "https://globex.test", "info@globex.test", "Scale your outreach",
   "<p>Hello Globex</p>", "Ads"⟩

/-- Draft with a malformed email address (spec scenario, section 8). -/
def badDraft : Draft :=
  ⟨"Acme", "https://acme.test", "not-an-email", "Hi", "<p>x</p>", ""⟩

/-- Store holding one prior successful record for ("Acme", "ops@acme.test"). -/
def demoState : CoreState :=
  ⟨[⟨0, "Acme", "ops@acme.test", 0, "sent", "SEO"⟩], [0], 1⟩

/-- State whose rate-limiter window already holds `HOURLY_EMAIL_LIMIT` sends. -/
def fullState : CoreState :=
  ⟨[], List.replicate HOURLY_EMAIL_LIMIT 0, 0⟩

/-- State with a prior Acme record and an exhausted rate window. -/
def dupFullState : CoreState :=
  ⟨[⟨0, "Acme", "ops@acme.test", 0, "sent", "SEO"⟩],
   List.replicate HOURLY_EMAIL_LIMIT 0, 1⟩

/-! ### Claim theorems -/

/-- C1: after one successful send for a (company_name, email) pair, any
later valid send attempt for the same pair — company compared exactly,
email case-insensitively — fails with `DuplicateError`, attempts no
transmission and appends no Activity Record; and the Duplicate Guard's
email comparison is case-insensitive while its company comparison is
exact. -/
theorem duplicate_prevention_spec :
    (∀ (n : Nat) (st : CoreState) (smtpOk : Bool) (d : Draft) (rec : ActivityRecord)
       (n' : Nat) (st' : CoreState) (n2 : Nat) (smtpOk2 : Bool) (d2 : Draft),
      (send n smtpOk d st).result = .ok rec →
      Reach (n, (send n smtpOk d st).state) (n', st') →
      validDraft d2 = true →
      d2.company_name = d.company_name →
      eqIgnoreCase d2.primary_email d.primary_email = true →
      send n2 smtpOk2 d2 st' = ⟨.error .DuplicateError, st', false⟩) ∧
    (has_prior_contact "Acme" "OPS@ACME.TEST" demoState = true ∧
     has_prior_contact "ACME" "ops@acme.test" demoState = false) := by
  constructor
  · intro n st smtpOk d rec n' st' n2 smtpOk2 d2 hok hreach hv2 hc2 he2
    obtain ⟨hrc, hre, hmem⟩ := send_ok_elim hok
    have hmem' : rec ∈ st'.activities := mem_activities_reach hreach hmem
    have hdup : has_prior_contact d2.company_name d2.primary_email st' = true := by
      unfold has_prior_contact
      rw [List.any_eq_true]
      refine ⟨rec, hmem', ?_⟩
      rw [Bool.and_eq_true]
      constructor
      · rw [beq_iff_eq, hrc, hc2]
      · rw [hre, eqIgnoreCase_symm]
        exact he2
    unfold send
    simp [hv2, hdup]
  · exact ⟨by decide, by decide⟩

/-- Witness for C1: a successful Acme send followed by a second attempt
with the same company and the email upper-cased is rejected as a
duplicate with no state change. -/
theorem duplicate_prevention_spec_witness :
    send 7 true demoDraft2 (send 0 true demoDraft initState).state =
      ⟨.error .DuplicateError, (send 0 true demoDraft initState).state, false⟩ :=
  duplicate_prevention_spec.1 0 initState true demoDraft
    ⟨0, "Acme", "ops@acme.test", 0, "sent", "SEO"⟩ 0
    (send 0 true demoDraft initState).state 7 true demoDraft2
    (by decide) (Reach.refl _) (by decide) rfl (by decide)

/-- C2: in every reachable state the count of Activity Records in the
trailing 60-minute window at the current time — and in the window ending
at any minute `t` — is at most `HOURLY_EMAIL_LIMIT`; and a valid,
non-duplicate send attempted while the rate limiter denies fails with
`RateLimitError` with no transmission and no state change. -/
theorem rate_limit_invariant :
    (∀ (n : Nat) (st : CoreState), Reachable (n, st) →
      st.activities.countP (fun r => decide (n ≤ r.sent_at + 60)) ≤ HOURLY_EMAIL_LIMIT ∧
      ∀ t, actWindowCount t st ≤ HOURLY_EMAIL_LIMIT) ∧
    (∀ (n : Nat) (st : CoreState) (smtpOk : Bool) (d : Draft),
      validDraft d = true →
      has_prior_contact d.company_name d.primary_email st = false →
      allow n st = false →
      send n smtpOk d st = ⟨.error .RateLimitError, st, false⟩) := by
  constructor
  · intro n st h
    obtain ⟨h1, h2, h3, h4⟩ := inv_reachable h
    constructor
    · have hcongr : st.activities.countP (fun r => decide (n ≤ r.sent_at + 60)) =
          actWindowCount n st := by
        unfold actWindowCount
        apply List.countP_congr
        intro r hr
        have hts := h1 r hr
        simp [decide_eq_true hts]
      rw [hcongr]
      exact h3 n
    · exact h3
  · intro n st smtpOk d hv hd ha
    unfold send
    simp [hv, hd, ha]

/-- Witness for C2: the empty initial state satisfies the window bound,
and a send against a state with a full rate window is rejected with
`RateLimitError` and no state change. -/
theorem rate_limit_invariant_witness :
    actWindowCount 30 initState ≤ HOURLY_EMAIL_LIMIT ∧
    send 0 true demoDraft fullState = ⟨.error .RateLimitError, fullState, false⟩ :=
  ⟨(rate_limit_invariant.1 0 initState (Reach.refl _)).2 30,
   rate_limit_invariant.2 0 fullState true demoDraft (by decide) (by decide) (by decide)⟩

/-- C3: a valid, non-duplicate, rate-admitted send whose SMTP
transmission fails yields `DeliveryError`: a transmission was attempted
but the state is unchanged — no Activity Record is created and the
rate-limit counter is not incremented. -/
theorem delivery_failure_no_side_effects :
    ∀ (n : Nat) (st : CoreState) (d : Draft),
      validDraft d = true →
      has_prior_contact d.company_name d.primary_email st = false →
      allow n st = true →
      send n false d st = ⟨.error .DeliveryError, st, true⟩ := by
  intro n st d hv hd ha
  unfold send
  simp [hv, hd, ha]

/-- Witness for C3: an SMTP failure on the first Acme send leaves the
initial state untouched. -/
theorem delivery_failure_no_side_effects_witness :
    send 0 false demoDraft initState = ⟨.error .DeliveryError, initState, true⟩ :=
  delivery_failure_no_side_effects 0 initState demoDraft (by decide) (by decide) (by decide)

/-- C4: draft generation has no durable side effects — running any list
of `draft-lead` requests, each succeeding or failing, leaves the backend
state (Activity Store and rate counter) unchanged. -/
theorem draft_generation_no_side_effects :
    ∀ (qs : List DraftRequest) (st : CoreState), runDrafts qs st = st := by
  intro qs
  induction qs with
  | nil => intro st; rfl
  | cons q qs ih => intro st; exact ih st

/-- C5: the duplicate check runs before the rate check — a valid draft
whose (company, email) pair has prior contact fails with
`DuplicateError`, not `RateLimitError`, even when the rate limiter would
also deny, and no transmission is attempted and the state is unchanged. -/
theorem duplicate_before_rate_check :
    ∀ (n : Nat) (st : CoreState) (smtpOk : Bool) (d : Draft),
      validDraft d = true →
      has_prior_contact d.company_name d.primary_email st = true →
      allow n st = false →
      send n smtpOk d st = ⟨.error .DuplicateError, st, false⟩ := by
  intro n st smtpOk d hv hd ha
  unfold send
  simp [hv, hd]

/-- Witness for C5: with a prior Acme record and a full rate window, the
Acme send is rejected as a duplicate, not as rate-limited. -/
theorem duplicate_before_rate_check_witness :
    send 0 true demoDraft dupFullState = ⟨.error .DuplicateError, dupFullState, false⟩ :=
  duplicate_before_rate_check 0 dupFullState true demoDraft (by decide) (by decide) (by decide)

/-- C6: a draft with an invalid email address, an empty subject, or an
empty body fails at `RECEIVED` with `ValidationError` and no side
effects: no transmission, no Activity Record, unchanged rate counter. -/
theorem validation_error_no_side_effects :
    ∀ (n : Nat) (st : CoreState) (smtpOk : Bool) (d : Draft),
      (validEmail d.primary_email = false ∨ d.subject = "" ∨ d.body = "") →
      send n smtpOk d st = ⟨.error .ValidationError, st, false⟩ := by
  intro n st smtpOk d h
  have hv : validDraft d = false := by
    unfold validDraft
    rcases h with h | h | h
    · simp [h]
    · simp [h]
    · simp [h]
  unfold send
  simp [hv]

/-- Witness for C6: the "not-an-email" scenario of the spec is rejected
with `ValidationError` and no record is created. -/
theorem validation_error_no_side_effects_witness :
    send 0 true badDraft initState = ⟨.error .ValidationError, initState, false⟩ :=
  validation_error_no_side_effects 0 initState true badDraft (Or.inl (by decide))

/-- C7: `activities()` is read-only and, in every reachable state, the
list it returns is ordered most-recent-first — every record's `sent_at`
is at least that of any record after it — and the frontend table renders
one row per record, keyed by id, in the order of that list. -/
theorem activities_read_only_sorted :
    (∀ st : CoreState, (activitiesOp st).2 = st) ∧
    (∀ (n : Nat) (st : CoreState), Reachable (n, st) →
      ∀ (i j : Fin (activitiesOp st).1.length), i < j →
        ((activitiesOp st).1.get j).sent_at ≤ ((activitiesOp st).1.get i).sent_at) ∧
    (∀ l : List ActivityRecord, renderRows l = l.map (fun a => a.id)) := by
  refine ⟨fun st => rfl, ?_, fun l => rfl⟩
  intro n st h i j hij
  obtain ⟨h1, h2, h3, h4⟩ := inv_reachable h
  exact List.pairwise_iff_get.mp h4 i j hij

/-- Witness for C7: after an Acme send at minute 0 and a Globex send at
minute 5, the served feed has the later record first. -/
theorem activities_read_only_sorted_witness :
    ((activitiesOp (send 5 true demoDraftB (send 0 true demoDraft initState).state).state).1.get
        ⟨1, by decide⟩).sent_at ≤
      ((activitiesOp (send 5 true demoDraftB (send 0 true demoDraft initState).state).state).1.get
        ⟨0, by decide⟩).sent_at :=
  activities_read_only_sorted.2.1 5
    (send 5 true demoDraftB (send 0 true demoDraft initState).state).state
    (Reach.step
      (Reach.step
        (Reach.step (Reach.refl _) (Step.sendStep 0 true demoDraft initState))
        (Step.tick 0 5 _ (by decide)))
      (Step.sendStep 5 true demoDraftB (send 0 true demoDraft initState).state))
    ⟨0, by decide⟩ ⟨1, by decide⟩ (by decide)

/-- C8: when the Composer succeeds the returned draft has a non-empty
subject and a non-empty body; an analyzer failure is propagated unchanged
as `AnalysisError`; an empty or unparseable AI generation yields
`CompositionError`. -/
theorem compose_contract :
    ∀ (c w e : String) (analysis : Except String AnalysisResult)
      (gen : Option (String × String)),
      (∀ d : Draft, compose c w e analysis gen = .ok d →
        d.subject ≠ "" ∧ d.body ≠ "") ∧
      (∀ m : String, analysis = .error m →
        compose c w e analysis gen = .error (.AnalysisError m)) ∧
      (∀ a : AnalysisResult, analysis = .ok a →
        (gen = none ∨ ∃ s b, gen = some (s, b) ∧ (s = "" ∨ b = "")) →
        compose c w e analysis gen = .error .CompositionError) := by
  intro c w e analysis gen
  refine ⟨?_, ?_, ?_⟩
  · intro d hok
    cases analysis with
    | error m => simp [compose] at hok
    | ok a =>
      cases gen with
      | none => simp [compose] at hok
      | some p =>
        obtain ⟨s, b⟩ := p
        unfold compose at hok
        dsimp only at hok
        by_cases hcond : (s == "" || b == "") = true
        · rw [if_pos hcond] at hok
          exact absurd hok (by simp)
        · rw [if_neg hcond] at hok
          simp only [Except.ok.injEq] at hok
          subst hok
          simp only [Bool.or_eq_true, beq_iff_eq] at hcond
          push_neg at hcond
          exact ⟨hcond.1, hcond.2⟩
  · intro m hm
    subst hm
    rfl
  · intro a ha hg
    subst ha
    rcases hg with hg | ⟨s, b, hgen, hsb⟩
    · subst hg; rfl
    · subst hgen
      rcases hsb with h | h <;> simp [compose, h]

/-- Analyzer result used by the C8 witness. -/
def demoAnalysis : AnalysisResult := ⟨["slow site"], ["SEO", "Ads"], "summary"⟩

/-- Witness for C8: a successful composition has non-empty subject and
body, a concrete analyzer failure is propagated, and a missing generation
fails with `CompositionError`. -/
theorem compose_contract_witness :
    ((⟨"Acme", "https://acme.test", "ops@acme.test", "Grow faster",
        "<p>Hello</p>", "SEO, Ads"⟩ : Draft).subject ≠ "" ∧
     (⟨"Acme", "https://acme.test", "ops@acme.test", "Grow faster",
        "<p>Hello</p>", "SEO, Ads"⟩ : Draft).body ≠ "") ∧
    compose "Acme" "https://acme.test" "ops@acme.test" (.error "unreachable") none =
      .error (.AnalysisError "unreachable") ∧
    compose "Acme" "https://acme.test" "ops@acme.test" (.ok demoAnalysis) none =
      .error .CompositionError :=
  ⟨(compose_contract "Acme" "https://acme.test" "ops@acme.test" (.ok demoAnalysis)
      (some ("Grow faster", "<p>Hello</p>"))).1 _ (by decide),
   (compose_contract "Acme" "https://acme.test" "ops@acme.test"
      (.error "unreachable") none).2.1 "unreachable" rfl,
   (compose_contract "Acme" "https://acme.test" "ops@acme.test"
      (.ok demoAnalysis) none).2.2 demoAnalysis rfl (Or.inl rfl)⟩

/-- Auxiliary to C9: under the serialized critical section, the request
scheduled first succeeds and the second request for the same pair is
rejected as a duplicate. -/
theorem send_pair_aux (n : Nat) (st : CoreState) (a b : Draft)
    (hva : validDraft a = true) (hvb : validDraft b = true)
    (hcb : b.company_name = a.company_name)
    (heb : eqIgnoreCase b.primary_email a.primary_email = true)
    (hda : has_prior_contact a.company_name a.primary_email st = false)
    (hal : allow n st = true) :
    (send n true a st).result =
      .ok ⟨st.nextId, a.company_name, a.primary_email, n, "sent", a.recommended_services⟩ ∧
    send n true b (send n true a st).state =
      ⟨.error .DuplicateError, (send n true a st).state, false⟩ := by
  have hsucc := send_success n a st hva hda hal
  refine ⟨by rw [hsucc], ?_⟩
  rw [hsucc]
  dsimp only
  have hdup : has_prior_contact b.company_name b.primary_email
      ⟨⟨st.nextId, a.company_name, a.primary_email, n, "sent", a.recommended_services⟩ ::
        st.activities, n :: st.rateEvents, st.nextId + 1⟩ = true := by
    unfold has_prior_contact
    rw [List.any_eq_true]
    refine ⟨_, List.mem_cons_self _ _, ?_⟩
    rw [Bool.and_eq_true]
    constructor
    · rw [beq_iff_eq]
      exact hcb.symm
    · rw [eqIgnoreCase_symm]
      exact heb
  unfold send
  simp [hvb, hdup]

/-- C9: two send requests for the same (company, email) pair — company
equal, emails equal up to case — executed under the serialized critical
section the spec mandates: in either execution order the request
scheduled first succeeds and the other fails with `DuplicateError`
without changing the state, so exactly one send occurs. -/
theorem concurrent_sends_exactly_one :
    ∀ (n : Nat) (st : CoreState) (d1 d2 : Draft),
      validDraft d1 = true →
      validDraft d2 = true →
      d2.company_name = d1.company_name →
      eqIgnoreCase d2.primary_email d1.primary_email = true →
      has_prior_contact d1.company_name d1.primary_email st = false →
      allow n st = true →
      ∀ firstIsD1 : Bool,
        ((send n true (if firstIsD1 then d1 else d2) st).result =
          .ok ⟨st.nextId, (if firstIsD1 then d1 else d2).company_name,
               (if firstIsD1 then d1 else d2).primary_email, n, "sent",
               (if firstIsD1 then d1 else d2).recommended_services⟩) ∧
        send n true (if firstIsD1 then d2 else d1)
            (send n true (if firstIsD1 then d1 else d2) st).state =
          ⟨.error .DuplicateError,
           (send n true (if firstIsD1 then d1 else d2) st).state, false⟩ := by
  intro n st d1 d2 hv1 hv2 hc2 he2 hd1 hal
  have hd2 : has_prior_contact d2.company_name d2.primary_email st = false := by
    rw [hc2, has_prior_contact_congr d1.company_name st he2]
    exact hd1
  intro firstIsD1
  cases firstIsD1 with
  | true => simpa using send_pair_aux n st d1 d2 hv1 hv2 hc2 he2 hd1 hal
  | false =>
    have hc2' : d1.company_name = d2.company_name := hc2.symm
    have he2' : eqIgnoreCase d1.primary_email d2.primary_email = true := by
      rw [eqIgnoreCase_symm]
      exact he2
    simpa using send_pair_aux n st d2 d1 hv2 hv1 hc2' he2' hd2 hal

/-- Witness for C9: of two competing Acme sends (emails differing only in
case) against the empty store, the first one succeeds and the second is
rejected as a duplicate. -/
theorem concurrent_sends_exactly_one_witness :
    (send 0 true demoDraft initState).result =
      .ok ⟨0, "Acme", "ops@acme.test", 0, "sent", "SEO"⟩ ∧
    send 0 true demoDraft2 (send 0 true demoDraft initState).state =
      ⟨.error .DuplicateError, (send 0 true demoDraft initState).state, false⟩ := by
  have h := concurrent_sends_exactly_one 0 initState demoDraft demoDraft2
    (by decide) (by decide) rfl (by decide) (by decide) (by decide) true
  simpa [demoDraft, initState] using h

/-- C10: the frontend send handler treats any resolved POST as a success
— it sets the success banner, discards the draft, resets the form and
clears the error without inspecting the response body's `success` field
(a resolved body whose `success` is `false` behaves exactly like one
whose `success` is `true`) — while only a rejected request sets the
error banner from the response detail and keeps the draft. -/
theorem handleSend_ignores_body_success :
    ∀ (st : UIState) (d : Draft), st.draft = some d →
      (∀ bs : Bool,
        handleSend st (.resolved bs) =
          ⟨none, ⟨"", "", ""⟩,
           some ("Email successfully sent to " ++ d.company_name ++ "!"), none⟩) ∧
      handleSend st (.resolved false) = handleSend st (.resolved true) ∧
      (∀ detail : Option String,
        (handleSend st (.rejected detail)).draft = some d ∧
        (handleSend st (.rejected detail)).error =
          some (detail.getD "Failed to send email. Please try again.")) := by
  intro st d hd
  cases st with
  | mk dr fd su er =>
    simp only at hd
    subst hd
    exact ⟨fun bs => rfl, rfl, fun detail => ⟨rfl, rfl⟩⟩

/-- UI state holding the demo draft, as after a successful draft step. -/
def demoUI : UIState :=
  ⟨some demoDraft, ⟨"Acme", "https://acme.test", "ops@acme.test"⟩, none, none⟩

/-- Witness for C10: a resolved request whose body says failure still
clears the draft and reports success, and a rejected request keeps the
draft. -/
theorem handleSend_ignores_body_success_witness :
    handleSend demoUI (.resolved false) =
      ⟨none, ⟨"", "", ""⟩, some "Email successfully sent to Acme!", none⟩ ∧
    (handleSend demoUI (.rejected (some "Duplicate: already contacted"))).draft =
      some demoDraft := by
  have h := handleSend_ignores_body_success demoUI demoDraft rfl
  exact ⟨by rw [h.1 false]; rfl, (h.2.2 (some "Duplicate: already contacted")).1⟩

end CRM
